import Mathlib

/-!
Verification of the lewis x86-64 compiler back-end.

This file gives a shallow embedding of the parts of the back-end that the
claims under scrutiny depend on:

* the x86-64 architecture IR (`src/include/lewis/target-x86_64/arch-ir.hpp`),
* the machine-code emitter (`src/lib/target-x86_64/mc-emitter.cpp`),
* the register allocator's interval collection, compound allocation and
  allocation-establishment walk, including the move-chain resolution of
  `PseudoMoveMultiple` parallel copies
  (`src/lib/target-x86_64/alloc-regs.cpp`).

Machine integers are modelled as `Nat`/`Int` with explicit truncation where
the C++ performs implicit integer conversion.  C++ `assert` failures and
`throw std::runtime_error` are modelled as `Except.error` with the message of
the corresponding assertion or exception.
-/

set_option autoImplicit false

namespace Lewis

/-! ## x86-64 architecture IR (arch-ir.hpp) -/

/-- Operand sizes of x86 mode values (`enum OperandSize` in arch-ir.hpp). -/
inductive OperandSize
  | null
  | dword
  | qword
deriving DecidableEq, Repr

/-- The x86 mode values.  `RegisterMode` carries `operandSize` and
`modeRegister` (initialised to `-1` until the allocator calls `setRegister`);
`BaseDispMemoryMode` carries `operandSize`, `baseRegister` and `disp`. -/
inductive AValue
  | registerMode (operandSize : OperandSize) (modeRegister : Int)
  | baseDispMemoryMode (operandSize : OperandSize) (baseRegister : Int) (disp : Int)
deriving DecidableEq, Repr

/-- The x86 IR instructions (`arch_instruction_kinds` and the instruction
structs of arch-ir.hpp).  Pseudo moves carry their `(result, operand)` value
pairs; after allocation both values carry the register assigned to their
live compound (written back by `setRegister`). -/
inductive AInstr
  | nop
  | defineOffset (result operand : AValue)
  | pushSave (operandRegister : Int)
  | popRestore (operandRegister : Int)
  | decrementStack (value : Int)
  | incrementStack (value : Int)
  | pseudoMoveSingle (result operand : AValue)
  | pseudoMoveMultiple (pairs : List (AValue × AValue))
  | movMC (result : AValue) (value : Nat)
  | movMR (result operand : AValue)
  | movRM (result operand : AValue)
  | xchgMR (firstResult secondResult : AValue)
  | negM (result : AValue)
  | addMR (result secondary : AValue)
  | andMR (result secondary : AValue)
  | call (function : String)
deriving DecidableEq, Repr

/-- The x86 IR branches (`arch_branch_kinds` of arch-ir.hpp).  Blocks are
named by index.  `ret` carries its operand values (`RetBranch::_operands`). -/
inductive ABranch
  | ret (operands : List AValue)
  | jmp (target : Nat)
  | jnz (operand : AValue) (ifTarget elseTarget : Nat)
deriving DecidableEq, Repr

/-! ## Byte encoding (util/byte-encode.hpp and mc-emitter.cpp)

`ByteEncoder` is a growing byte vector with little-endian primitives;
`MachineCodeEmitter::_emitBlock` drives three encoders, one each for the
`.text`, `.got` and `.plt` sections.  Symbols, strings and relocation records
do not contribute bytes to those buffers and are not modelled here; the bytes
written at relocation sites (always zero until the link pass) are. -/

/-- Truncation of a C++ integer to an unsigned byte (`uint8_t` conversion). -/
def byteOf (x : Int) : Nat := (x % 256).toNat

/-- `encode32`: little-endian encoding of a value converted to `uint32_t`. -/
def encode32N (v : Nat) : List Nat :=
  let w := v % 2 ^ 32
  [w % 256, w / 2 ^ 8 % 256, w / 2 ^ 16 % 256, w / 2 ^ 24 % 256]

/-- `encode32` applied to a signed C++ integer (conversion modulo `2^32`). -/
def encode32I (x : Int) : List Nat := encode32N (x % (2 ^ 32 : Nat)).toNat

/-- `encode64`: little-endian encoding of a `uint64_t`. -/
def encode64N (v : Nat) : List Nat :=
  let w := v % 2 ^ 64
  [w % 256, w / 2 ^ 8 % 256, w / 2 ^ 16 % 256, w / 2 ^ 24 % 256,
   w / 2 ^ 32 % 256, w / 2 ^ 40 % 256, w / 2 ^ 48 % 256, w / 2 ^ 56 % 256]

/-- `encodeRawRex`: emits a REX prefix byte `0x40 | w<<3 | r<<2 | x<<1 | b`
only when at least one bit is set; `w` is set iff the operand size is
`qword`. -/
def encodeRawRex (os : OperandSize) (r x b : Nat) : List Nat :=
  let w : Nat := if os = OperandSize.qword then 1 else 0
  if w ≠ 0 ∨ r ≠ 0 ∨ x ≠ 0 ∨ b ≠ 0 then
    [0x40 ||| (w <<< 3) ||| (r <<< 2) ||| (x <<< 1) ||| b]
  else
    []

/-- `encodeRawModRm`: the ModR/M byte `mod<<6 | x<<3 | m`. -/
def encodeRawModRm (md m x : Nat) : Nat := (md <<< 6) ||| (x <<< 3) ||| m

/-- `getOperandSize` of mc-emitter.cpp. -/
def getOperandSizeOf : AValue → OperandSize
  | AValue.registerMode os _ => os
  | AValue.baseDispMemoryMode os _ _ => os

/-- `getRegister` of mc-emitter.cpp: only defined on `RegisterMode` values
(the other cases hit `assert(!"Unexpected x86_64 IR value")`). -/
def getRegisterOf : AValue → Except String Int
  | AValue.registerMode _ r => Except.ok r
  | _ => Except.error "Unexpected x86_64 IR value"

/-- `ModRmEncoding::_x()`: the R-field, either an R-value's register (must be
allocated, i.e. nonnegative) or an opcode extension `xop`. -/
def modRmXValue (rv : Option AValue) (xop : Int) : Except String Int :=
  match rv with
  | some v =>
    match getRegisterOf v with
    | Except.ok rr => if rr ≥ 0 then Except.ok rr else Except.error "register not allocated"
    | Except.error e => Except.error e
  | none => if xop ≥ 0 then Except.ok xop else Except.error "missing opcode extension"

/-- `ModRmEncoding::encodeRex`: REX prefix derived from the M-value's operand
size and base/mode register and from the R-field. -/
def modRmRex (mv : AValue) (rv : Option AValue) (xop : Int) : Except String (List Nat) := do
  let os := getOperandSizeOf mv
  match rv with
  | some v =>
    if getOperandSizeOf v = os then pure () else Except.error "operand size mismatch"
  | none => pure ()
  let b ← match mv with
    | AValue.registerMode _ r =>
      if r ≥ 0 then pure (if r ≥ 8 then 1 else 0)
      else Except.error "register not allocated"
    | AValue.baseDispMemoryMode _ br _ =>
      if br ≥ 0 then pure (if br ≥ 8 then 1 else 0)
      else Except.error "register not allocated"
  let x ← modRmXValue rv xop
  Except.ok (encodeRawRex os (if x ≥ 8 then 1 else 0) 0 b)

/-- `ModRmEncoding::encodeModRmSib`: the ModR/M byte plus optional 8- or
32-bit displacement.  A base register congruent to 5 mod 8 is rejected by the
source's assertion about needing an SIB byte. -/
def modRmSib (mv : AValue) (rv : Option AValue) (xop : Int) : Except String (List Nat) := do
  let x ← modRmXValue rv xop
  match mv with
  | AValue.registerMode _ r =>
    if r ≥ 0 then Except.ok [encodeRawModRm 3 (r.toNat % 8) (x.toNat % 8)]
    else Except.error "register not allocated"
  | AValue.baseDispMemoryMode _ br disp =>
    if br < 0 then Except.error "register not allocated"
    else if br.toNat % 8 == 5 then
      Except.error "RSP/R12 need an SIB-byte to encode BaseDispMemoryMode"
    else if -128 ≤ disp ∧ disp ≤ 127 then
      Except.ok [encodeRawModRm 1 (br.toNat % 8) (x.toNat % 8), byteOf disp]
    else
      Except.ok ([encodeRawModRm 2 (br.toNat % 8) (x.toNat % 8)] ++ encode32I disp)

/-- The byte buffers filled by `MachineCodeEmitter::_emitBlock`: the `.text`
section and the `.got`/`.plt` sections grown at call sites. -/
structure EmitState where
  text : List Nat := []
  got : List Nat := []
  plt : List Nat := []
deriving DecidableEq, Repr

/-- One step of the instruction loop of `MachineCodeEmitter::_emitBlock`
(mc-emitter.cpp lines 179-295).  Instruction kinds without a case in the
source dispatch — `PseudoMoveSingle`, `PseudoMoveMultiple`, `DecrementStack`
and `IncrementStack` among them — fall through to
`assert(!"Unexpected x86_64 IR instruction")`. -/
def emitInstr (st : EmitState) : AInstr → Except String EmitState
  | AInstr.nop => Except.ok st
  | AInstr.defineOffset _ _ => Except.ok st
  | AInstr.pushSave r =>
    if r < 0 then Except.error "register not allocated"
    else if r < 8 then Except.ok { st with text := st.text ++ [byteOf (0x50 + r)] }
    else Except.ok { st with text :=
      st.text ++ encodeRawRex OperandSize.dword 0 0 1 ++ [0xFF, encodeRawModRm 3 (r.toNat % 8) 6] }
  | AInstr.popRestore r =>
    if r < 0 then Except.error "register not allocated"
    else if r < 8 then Except.ok { st with text := st.text ++ [byteOf (0x58 + r)] }
    else Except.ok { st with text :=
      st.text ++ encodeRawRex OperandSize.dword 0 0 1 ++ [0x8F, encodeRawModRm 3 (r.toNat % 8) 0] }
  | AInstr.movMC res v => do
    let rr ← getRegisterOf res
    if rr < 0 then Except.error "register not allocated"
    else if rr < 8 then
      Except.ok { st with text := st.text ++ [byteOf (0xB8 + rr)] ++ encode32N v }
    else do
      let rex ← modRmRex res none 0
      let sib ← modRmSib res none 0
      Except.ok { st with text := st.text ++ rex ++ [0xC7] ++ sib ++ encode32N v }
  | AInstr.movMR res op => do
    let rex ← modRmRex res (some op) (-1)
    let sib ← modRmSib res (some op) (-1)
    Except.ok { st with text := st.text ++ rex ++ [0x89] ++ sib }
  | AInstr.movRM res op => do
    let rex ← modRmRex op (some res) (-1)
    let sib ← modRmSib op (some res) (-1)
    Except.ok { st with text := st.text ++ rex ++ [0x8B] ++ sib }
  | AInstr.xchgMR fst snd => do
    let rex ← modRmRex fst (some snd) (-1)
    let sib ← modRmSib fst (some snd) (-1)
    Except.ok { st with text := st.text ++ rex ++ [0x87] ++ sib }
  | AInstr.negM res => do
    let rex ← modRmRex res none 3
    let sib ← modRmSib res none 3
    Except.ok { st with text := st.text ++ rex ++ [0xF7] ++ sib }
  | AInstr.addMR res sec => do
    let rex ← modRmRex res (some sec) (-1)
    let sib ← modRmSib res (some sec) (-1)
    Except.ok { st with text := st.text ++ rex ++ [0x01] ++ sib }
  | AInstr.andMR res sec => do
    let rex ← modRmRex res (some sec) (-1)
    let sib ← modRmSib res (some sec) (-1)
    Except.ok { st with text := st.text ++ rex ++ [0x21] ++ sib }
  | AInstr.call _ =>
    Except.ok { st with
      got := st.got ++ encode64N 0,
      plt := st.plt ++ [0xFF, 0x25] ++ encode32N 0,
      text := st.text ++ [0xE8] ++ encode32N 0 }
  | AInstr.pseudoMoveSingle _ _ => Except.error "Unexpected x86_64 IR instruction"
  | AInstr.pseudoMoveMultiple _ => Except.error "Unexpected x86_64 IR instruction"
  | AInstr.decrementStack _ => Except.error "Unexpected x86_64 IR instruction"
  | AInstr.incrementStack _ => Except.error "Unexpected x86_64 IR instruction"

/-- The branch epilogue of `MachineCodeEmitter::_emitBlock` (lines 298-336):
`Ret` emits `C3`; `Jmp` emits `E9` plus a zeroed 32-bit relocation site;
`Jnz` emits `TEST r,r` (`85 /r` with the operand twice), `0F 85` and `E9`
each followed by a zeroed 32-bit relocation site. -/
def emitBranch (st : EmitState) : ABranch → Except String EmitState
  | ABranch.ret _ => Except.ok { st with text := st.text ++ [0xC3] }
  | ABranch.jmp _ => Except.ok { st with text := st.text ++ [0xE9] ++ encode32N 0 }
  | ABranch.jnz op _ _ => do
    let rex ← modRmRex op (some op) (-1)
    let sib ← modRmSib op (some op) (-1)
    Except.ok { st with text :=
      st.text ++ rex ++ [0x85] ++ sib ++ [0x0F, 0x85] ++ encode32N 0 ++ [0xE9] ++ encode32N 0 }

/-- `MachineCodeEmitter::_emitBlock`: emit every instruction of the block in
order, then the terminator branch. -/
def emitBlock (insts : List AInstr) (branch : ABranch) : Except String EmitState := do
  let st ← insts.foldlM emitInstr ({} : EmitState)
  emitBranch st branch

/-! ## Move-chain resolution (alloc-regs.cpp, `_establishAllocation`)

`AllocateRegistersImpl::_establishAllocation` rewrites every
`PseudoMoveMultiple` instruction into a sequence of concrete instructions by
building a move-chain graph with one `MoveChain` node per physical register
(`MoveChain chains[16]`).  The pair `(operand, result)` of index `i` whose
registers coincide immediately becomes a `Nop`; every other pair adds an edge
from its operand register to its result register.  A backward traversal marks
tails and cycles; tail moves are then emitted until no tail remains, and any
cycle that becomes active afterwards reaches
`assert(!"Implement move cycles")`.

The registers of a pair are the `allocatedRegister`s of the operand and
result compounds, which `setRegister` has already written into the mode
values, so they are read off the values here. -/

/-- One node of the move-chain graph (`struct MoveChain` of alloc-regs.cpp).
`operandIndex`, `uniqueSource` and `cyclePointer` model the source's
`-1`/null defaults as `none`. -/
structure MoveChain where
  seenInTraversal : Bool := false
  traversalFinished : Bool := false
  cyclePointer : Option Nat := none
  isSource : Bool := false
  pendingMovesFromThisSource : Int := 0
  isTarget : Bool := false
  operandIndex : Option Nat := none
  uniqueSource : Option Nat := none
  didMoveToThisTarget : Bool := false
  pendingMovesFromThisCycle : Int := 0
deriving Repr

/-- `MoveChain::isTail()`: a target whose outgoing moves are all emitted. -/
def MoveChain.isTail (c : MoveChain) : Bool :=
  if !c.isTarget then false
  else if c.isSource && c.pendingMovesFromThisSource != 0 then false
  else true

/-- Update one node of the chain array. -/
def updChain (ch : Nat → MoveChain) (i : Nat) (c : MoveChain) : Nat → MoveChain :=
  fun j => if j == i then c else ch j

/-- An instruction emitted while resolving a parallel copy, identified by the
`PseudoMoveMultiple` pair index it stems from.  (`xchg` does not occur: the
source's cycle resolution is unimplemented.) -/
inductive ChainMove
  | nop (index : Nat)
  | mov (index : Nat)
deriving DecidableEq, Repr

/-- The chain-building loop over the pairs of the `PseudoMoveMultiple`
(alloc-regs.cpp lines 947-977).  A self-loop emits a `Nop` for its pair and
touches no chain; otherwise the result chain must not already have a source
(`assert(!resultChain->uniqueSource)`) and the edge is recorded. -/
def buildChains : List (Nat × Nat) → Nat → (Nat → MoveChain) → List ChainMove →
    Except String ((Nat → MoveChain) × List ChainMove)
  | [], _, ch, em => Except.ok (ch, em)
  | (opReg, resReg) :: rest, i, ch, em =>
    if opReg == resReg then buildChains rest (i + 1) ch (em ++ [ChainMove.nop i])
    else
      let rc := ch resReg
      if rc.uniqueSource.isSome then Except.error "move target has two sources"
      else
        let ch1 := updChain ch resReg
          { rc with isTarget := true, operandIndex := some i, uniqueSource := some opReg }
        let oc := ch1 opReg
        let ch2 := updChain ch1 opReg
          { oc with isSource := true, pendingMovesFromThisSource := oc.pendingMovesFromThisSource + 1 }
        buildChains rest (i + 1) ch2 em

/-- Cycle marking (alloc-regs.cpp lines 1035-1049): once the traversal runs
into a chain `cur` that is seen but not finished, the stack is walked from
the top; every element down to and including `cur` gets `cyclePointer := cur`
and contributes `pendingMovesFromThisSource - 1` moves-out-of-the-cycle to
`cur`'s `pendingMovesFromThisCycle`. -/
def markCycle (cur : Nat) : List Nat → (Nat → MoveChain) → Except String (Nat → MoveChain)
  | [], _ => Except.error "cycle representative not on stack"
  | e :: rest, ch =>
    if (ch e).pendingMovesFromThisSource ≤ 0 then
      Except.error "cycle member without pending moves"
    else
      let ch1 := updChain ch e { ch e with cyclePointer := some cur }
      let ch2 := updChain ch1 cur { ch1 cur with pendingMovesFromThisCycle :=
        (ch1 cur).pendingMovesFromThisCycle + ((ch1 e).pendingMovesFromThisSource - 1) }
      if e == cur then Except.ok ch2 else markCycle cur rest ch2

/-- The backward walk from one root chain (alloc-regs.cpp lines 1028-1056):
follow `uniqueSource` until reaching a finished chain, a seen chain (a cycle)
or a chain without a source.  Returns the updated array and the visit stack
(top first).  Each step marks an unseen chain, so fuel 17 never runs out for
a 16-register array. -/
def walkChain : Nat → Option Nat → List Nat → (Nat → MoveChain) →
    Except String ((Nat → MoveChain) × List Nat)
  | _, none, stack, ch => Except.ok (ch, stack)
  | 0, some _, _, _ => Except.error "traversal fuel exhausted"
  | fuel + 1, some cur, stack, ch =>
    let c := ch cur
    if c.traversalFinished then Except.ok (ch, stack)
    else if c.seenInTraversal then do
      Except.ok (← markCycle cur stack ch, stack)
    else
      walkChain fuel c.uniqueSource (cur :: stack)
        (updChain ch cur { c with seenInTraversal := true })

/-- The traversal over all 16 roots (alloc-regs.cpp lines 1021-1061): for
each root in ascending order, push it on the active-tail stack if it is a
tail, walk backwards from it, and mark everything on the visit stack as
finished.  The returned tail list has the most recently pushed tail first,
matching `push_back`/`back`/`pop_back`. -/
def traversePhase (ch0 : Nat → MoveChain) :
    Except String ((Nat → MoveChain) × List Nat) :=
  (List.range 16).foldlM
    (fun (acc : (Nat → MoveChain) × List Nat) i => do
      let (ch, tails) := acc
      let tails := if (ch i).isTail then i :: tails else tails
      let (ch, stack) ← walkChain 17 (some i) [] ch
      let ch := stack.foldl (fun ch e => updChain ch e { ch e with traversalFinished := true }) ch
      Except.ok (ch, tails))
    (ch0, [])

/-- State of the emission loops: the chain array, the active tail stack, the
active cycle list and the moves emitted so far. -/
structure ResolveState where
  chains : Nat → MoveChain
  activeTails : List Nat
  activeCycles : List Nat
  emitted : List ChainMove

/-- `emitMoveToChain` (alloc-regs.cpp lines 983-1018): emit the unique move
into `target`, decrement the source's pending count, activate the source as
a tail when possible, and activate the source's cycle when its last
move-out-of-the-cycle was just emitted.  The source asserts that the move was
not emitted before, that the source still has pending moves, and that the
operand/result intervals sit on the chain registers. -/
def emitMoveToChain (regPairs : List (Nat × Nat)) (st : ResolveState) (target : Nat) :
    Except String ResolveState := do
  let tc := st.chains target
  let index ← match tc.operandIndex with
    | some i => pure i
    | none => Except.error "move target without operand index"
  let src ← match tc.uniqueSource with
    | some s => pure s
    | none => Except.error "move target without source"
  if tc.didMoveToThisTarget then Except.error "move emitted twice"
  else if (st.chains src).pendingMovesFromThisSource ≤ 0 then
    Except.error "source without pending moves"
  else
    match regPairs.get? index with
    | none => Except.error "invalid pair index"
    | some (opReg, resReg) =>
      if opReg ≠ src ∨ resReg ≠ target then
        Except.error "interval and chain registers disagree"
      else
        let ch := updChain st.chains target { tc with didMoveToThisTarget := true }
        let sc := ch src
        let ch := updChain ch src
          { sc with pendingMovesFromThisSource := sc.pendingMovesFromThisSource - 1 }
        let tails := if (ch src).isTail then src :: st.activeTails else st.activeTails
        let (ch, cycles) :=
          match (ch src).cyclePointer with
          | some cyc =>
            if some cyc ≠ (ch target).cyclePointer then
              let cc := ch cyc
              let ch1 := updChain ch cyc
                { cc with pendingMovesFromThisCycle := cc.pendingMovesFromThisCycle - 1 }
              if (ch1 cyc).pendingMovesFromThisCycle == 0 then
                (ch1, st.activeCycles ++ [cyc])
              else (ch1, st.activeCycles)
            else (ch, st.activeCycles)
          | none => (ch, st.activeCycles)
        Except.ok { chains := ch, activeTails := tails, activeCycles := cycles,
                    emitted := st.emitted ++ [ChainMove.mov index] }

/-- The tail loop (alloc-regs.cpp lines 1064-1068): pop the most recent
active tail and emit its move until no tail remains.  Every emission consumes
a distinct target, so fuel 64 never runs out for 16 registers. -/
def drainTails (regPairs : List (Nat × Nat)) : Nat → ResolveState → Except String ResolveState
  | 0, _ => Except.error "tail fuel exhausted"
  | fuel + 1, st =>
    match st.activeTails with
    | [] => Except.ok st
    | t :: rest => do
      drainTails regPairs fuel (← emitMoveToChain regPairs { st with activeTails := rest } t)

/-- The complete parallel-copy resolution of one `PseudoMoveMultiple`
(alloc-regs.cpp lines 926-1084), over the `(operandRegister, resultRegister)`
pairs of the instruction: build the chains (emitting `Nop`s for self-loops),
traverse to find tails and cycles, drain the tails, and finally hit
`assert(!"Implement move cycles")` if any cycle became active. -/
def resolveMoveChains (regPairs : List (Nat × Nat)) : Except String (List ChainMove) := do
  let (ch, nops) ← buildChains regPairs 0 (fun _ => {}) []
  let (ch, tails) ← traversePhase ch
  let st ← drainTails regPairs 64
    { chains := ch, activeTails := tails, activeCycles := [], emitted := nops }
  if st.activeCycles.isEmpty then Except.ok st.emitted
  else Except.error "Implement move cycles"

/-! ## Establishing the allocation (alloc-regs.cpp, `_establishAllocation`) -/

/-- Registers of the `(result, operand)` pairs of a `PseudoMoveMultiple`,
read as `(operandRegister, resultRegister)` with the source's nonnegativity
assertions (alloc-regs.cpp lines 948-954). -/
def pseudoPairRegisters : List (AValue × AValue) → Except String (List (Nat × Nat))
  | [] => Except.ok []
  | (res, op) :: rest =>
    match getRegisterOf op, getRegisterOf res with
    | Except.ok rOp, Except.ok rRes =>
      if rOp < 0 ∨ rRes < 0 then Except.error "register not allocated"
      else
        match pseudoPairRegisters rest with
        | Except.ok tl => Except.ok ((rOp.toNat, rRes.toNat) :: tl)
        | Except.error e => Except.error e
    | Except.error e, _ => Except.error e
    | _, Except.error e => Except.error e

/-- Translation of the resolved chain moves back into x86 IR instructions:
a self-loop pair becomes a `Nop` (`NopInstruction`), an emitted move becomes
a `MovMR` built from the pair's result and operand values
(alloc-regs.cpp lines 956-963 and 994-1002). -/
def translateChainMoves (pairs : List (AValue × AValue)) :
    List ChainMove → Except String (List AInstr)
  | [] => Except.ok []
  | ChainMove.nop _ :: rest =>
    match translateChainMoves pairs rest with
    | Except.ok tl => Except.ok (AInstr.nop :: tl)
    | Except.error e => Except.error e
  | ChainMove.mov i :: rest =>
    match pairs.get? i with
    | some (res, op) =>
      match translateChainMoves pairs rest with
      | Except.ok tl => Except.ok (AInstr.movMR res op :: tl)
      | Except.error e => Except.error e
    | none => Except.error "invalid pair index"

/-- One step of the rewrite walk of `_establishAllocation` (alloc-regs.cpp
lines 842-1095): a `PseudoMoveSingle` whose operand and result compounds got
the same register fuses to a `Nop`, otherwise it becomes a `MovMR`; a
`PseudoMoveMultiple` is resolved by the move-chain algorithm; every other
instruction is kept unchanged. -/
def establishInstr : AInstr → Except String (List AInstr)
  | AInstr.pseudoMoveSingle res op =>
    match getRegisterOf op, getRegisterOf res with
    | Except.ok rOp, Except.ok rRes =>
      if rOp < 0 ∨ rRes < 0 then Except.error "register not allocated"
      else if rOp == rRes then Except.ok [AInstr.nop]
      else Except.ok [AInstr.movMR res op]
    | Except.error e, _ => Except.error e
    | _, Except.error e => Except.error e
  | AInstr.pseudoMoveMultiple pairs =>
    match pseudoPairRegisters pairs with
    | Except.error e => Except.error e
    | Except.ok regPairs =>
      match resolveMoveChains regPairs with
      | Except.error e => Except.error e
      | Except.ok moves => translateChainMoves pairs moves
  | i => Except.ok [i]

/-- The rewrite walk over a whole block's instruction list. -/
def establishWalk : List AInstr → Except String (List AInstr)
  | [] => Except.ok []
  | i :: rest =>
    match establishInstr i, establishWalk rest with
    | Except.ok here, Except.ok there => Except.ok (here ++ there)
    | Except.error e, _ => Except.error e
    | _, Except.error e => Except.error e

/-- Callee-saved registers, "i.e. owned by the caller" in the source's
wording: RBX, RBP, R12-R15 (alloc-regs.cpp line 810). -/
def callerRegs : Nat := 0xF028

/-- Every GPR except for RSP (alloc-regs.cpp line 16). -/
def gprMask : Nat := 0xFFEF

/-- Population count of a 16-bit register mask (`__builtin_popcountl`). -/
def popCount16 (mask : Nat) : Nat := (List.range 16).countP (fun i => mask.testBit i)

/-- The function prologue inserted at the head of the entry block
(alloc-regs.cpp lines 824-836): one `PushSave` per saved register in
ascending order, then `DecrementStack frameSpace` when `frameSpace` is
nonzero. -/
def prologueInstrs (saveMask frameSpace : Nat) : List AInstr :=
  ((List.range 16).filter (fun i => saveMask.testBit i)).map
      (fun i => AInstr.pushSave (Int.ofNat i))
    ++ (if frameSpace ≠ 0 then [AInstr.decrementStack (Int.ofNat frameSpace)] else [])

/-- The function epilogue appended to a returning block (alloc-regs.cpp
lines 1097-1106): one `PopRestore` per saved register in descending order,
then `IncrementStack frameSpace` when `frameSpace` is nonzero. -/
def epilogueInstrs (saveMask frameSpace : Nat) : List AInstr :=
  ((List.range 16).reverse.filter (fun i => saveMask.testBit i)).map
      (fun i => AInstr.popRestore (Int.ofNat i))
    ++ (if frameSpace ≠ 0 then [AInstr.incrementStack (Int.ofNat frameSpace)] else [])

/-- `AllocateRegistersImpl::_establishAllocation` on one basic block
(alloc-regs.cpp lines 808-1107): compute the save mask from the used
registers, derive `frameSpace` from the source's 16-byte stack-alignment
rule (`frameSpace = 0; if (!((frameSpace + saveSpace) & 0xF)) frameSpace +=
8;` and the subsequent alignment assertion), prefix the entry block with the
prologue, rewrite all pseudo moves, and append the epilogue when the block
ends in a `Ret`.  The prologue instructions pass the rewrite walk unchanged
(they are not pseudo moves), so prefixing them afterwards is equivalent. -/
def establishAllocationBlock (isEntryBlock : Bool) (usedRegisters : Nat)
    (insts : List AInstr) (branch : ABranch) : Except String (List AInstr) :=
  let saveMask := callerRegs &&& usedRegisters
  let saveSpace := popCount16 saveMask * 8
  let frameSpace := if (0 + saveSpace) &&& 0xF == 0 then 8 else 0
  if (frameSpace + saveSpace) &&& 0xF ≠ 8 then Except.error "stack alignment assertion"
  else
    match establishWalk insts with
    | Except.error e => Except.error e
    | Except.ok body =>
      let pro := if isEntryBlock then prologueInstrs saveMask frameSpace else []
      let epi := match branch with
        | ABranch.ret _ => epilogueInstrs saveMask frameSpace
        | _ => []
      Except.ok (pro ++ body ++ epi)

/-! ## Program counters and live intervals (alloc-regs.cpp)

The claims below concern single-block functions, so the leading
block-identity comparison of `ProgramCounter::operator<` never
discriminates and is omitted; the remaining comparison chain is modelled
field by field.  `subBlock` is `-1`/`0`/`1` for
`beforeBlock`/`inBlock`/`afterBlock` and `subInstruction` is `-1`/`0`/`1`
for `beforeInstruction`/`atInstruction`/`afterInstruction`.  `instrIndex`
is the block-position index that `indexOfInstruction` returns; program
counters outside `inBlock` carry a null instruction in the source and
compare equal on that field, modelled by always storing index 0 there. -/

/-- A point of the program at which allocation is performed
(`struct ProgramCounter`), within a fixed basic block. -/
structure PC where
  subBlock : Int
  instrIndex : Nat
  subInstruction : Int
deriving DecidableEq, Repr

/-- `ProgramCounter::operator<` within one block. -/
def PC.ltB (a b : PC) : Bool :=
  if a.subBlock != b.subBlock then a.subBlock < b.subBlock
  else if a.instrIndex != b.instrIndex then a.instrIndex < b.instrIndex
  else a.subInstruction < b.subInstruction

/-- `ProgramCounter::operator<=`: `<` or equality on all fields. -/
def PC.leB (a b : PC) : Bool := PC.ltB a b || a == b

/-- A live interval (`struct LiveInterval`): a program-counter range plus
the identity of its `equivalencePointer` (the source's default is the
interval's own address, modelled by a distinct identifier). -/
structure LiveInterval where
  equiv : Nat
  originPc : PC
  finalPc : PC
deriving DecidableEq, Repr

/-- A live compound queued for allocation (`struct LiveCompound`),
identified so that penalty edges can refer to it. -/
structure CompoundSpec where
  id : Nat
  possibleRegisters : Nat
  intervals : List LiveInterval
deriving DecidableEq, Repr

/-- An interval recorded in the `_allocated` interval tree together with its
compound's allocated register. -/
structure AllocEntry where
  interval : LiveInterval
  reg : Nat
deriving DecidableEq, Repr

/-- Closed-interval overlap as reported by
`frg::interval_tree::for_overlaps(f, lb, ub)` (the tree itself lives in the
external frigg library): an entry `[origin, final]` overlaps `[lb, ub]` iff
`origin ≤ ub` and `lb ≤ final`. -/
def intervalOverlaps (e : LiveInterval) (lb ub : PC) : Bool :=
  PC.leB e.originPc ub && PC.leB lb e.finalPc

/-- The allocation state threaded through `_allocateCompound`: registers
assigned so far (by compound id), the interval tree of allocated intervals,
and the `_usedRegisters` bitmask feeding the prologue. -/
structure AllocState where
  assignments : List (Nat × Nat) := []
  tree : List AllocEntry := []
  usedRegisters : Nat := 0
deriving DecidableEq, Repr

/-- The overlap scan of `_allocateCompound` (alloc-regs.cpp lines 321-335):
register `r` is impossible for the compound iff some interval of the
compound overlaps an allocated interval on register `r` whose
`equivalencePointer` differs. -/
def registerImpossible (tree : List AllocEntry) (c : CompoundSpec) (r : Nat) : Bool :=
  c.intervals.any (fun iv =>
    tree.any (fun e =>
      intervalOverlaps e.interval iv.originPc iv.finalPc
        && e.interval.equiv != iv.equiv && e.reg == r))

/-- The penalty scan of `_allocateCompound` (alloc-regs.cpp lines 338-358):
every penalty edge incident to the compound whose peer is already allocated
adds `1` to the base cost and `-1` to the peer register's relative cost. -/
def relativeCosts (assignments : List (Nat × Nat)) (penalties : List (Nat × Nat))
    (cid : Nat) : (Nat → Int) × Int :=
  penalties.foldl
    (fun (acc : (Nat → Int) × Int) p =>
      let other :=
        if p.1 == cid then some p.2
        else if p.2 == cid then some p.1
        else none
      match other with
      | none => acc
      | some o =>
        match assignments.lookup o with
        | none => acc
        | some r => (fun j => if j == r then acc.1 j - 1 else acc.1 j, acc.2 + 1))
    (fun _ => 0, 0)

/-- The register choice loop of `_allocateCompound` (alloc-regs.cpp lines
361-377): among the registers in `possibleRegisters` that are not blocked by
an overlap, pick the first one with minimal relative cost
(`ignorePenalties` is `false` in the source). -/
def chooseBestRegister (mask : Nat) (impossible : Nat → Bool) (rel : Nat → Int) :
    Option Nat :=
  (List.range 16).foldl
    (fun best i =>
      if !(mask.testBit i) then best
      else if impossible i then best
      else
        match best with
        | none => some i
        | some b => if rel b > rel i then some i else best)
    none

/-- `AllocateRegistersImpl::_allocateCompound` (alloc-regs.cpp lines
307-396): assert the compound is not allocated twice, scan overlaps and
penalties, choose the cheapest possible register — failing with the
source's "live range splitting" exception if none remains — and record the
compound's intervals in the tree and its register in `_usedRegisters`. -/
def allocateCompound (st : AllocState) (penalties : List (Nat × Nat))
    (c : CompoundSpec) : Except String AllocState :=
  if (st.assignments.lookup c.id).isSome then Except.error "Compound is allocated twice"
  else
    let rel := (relativeCosts st.assignments penalties c.id).1
    match chooseBestRegister c.possibleRegisters (registerImpossible st.tree c) rel with
    | none => Except.error "TODO: Implement live range splitting"
    | some r =>
      Except.ok
        { assignments := st.assignments ++ [(c.id, r)],
          tree := st.tree ++ c.intervals.map (fun iv => { interval := iv, reg := r }),
          usedRegisters := st.usedRegisters ||| (1 <<< r) }

/-- The allocation loops of `AllocateRegistersImpl::run()` (alloc-regs.cpp
lines 284-298): compounds are popped in queue order — the restricted queue
first, then the unrestricted queue — and allocated one by one. -/
def allocateAll : List CompoundSpec → List (Nat × Nat) → AllocState →
    Except String AllocState
  | [], _, st => Except.ok st
  | c :: rest, penalties, st =>
    match allocateCompound st penalties c with
    | Except.ok st1 => allocateAll rest penalties st1
    | Except.error e => Except.error e

/-! ## Interval collection for phi nodes (alloc-regs.cpp,
`_collectBlockIntervals`, lines 407-455)

For every phi of a block, a `PseudoMoveSingle` is inserted at the head of
the block (the `j`-th phi's pseudo move ends up at instruction index `j`).
The phi's node compound gets `possibleRegisters = 0x80` when the phi is an
`ArgumentPhi` and `gprMask` when it is a `DataFlowPhi`; its interval runs
from `beforeBlock` to just before the pseudo move.  A copy compound with
`possibleRegisters = gprMask` covers the pseudo move's result from just
after the pseudo move; its final counter is the last use of that result
(`_determineFinalPc`), or its origin if the result is unused.  Node
compounds are pushed to the unrestricted queue immediately, copy compounds
after the whole block is scanned, and each phi contributes the penalty edge
`{nodeCompound, copyCompound}`.

Compound and equivalence identifiers: the `j`-th phi's node compound gets id
`2*j` and its copy compound id `2*j+1`; each interval's equivalence
identifier is its compound's id (the source default — every interval is its
own equivalence class here). -/

/-- Kinds of phi nodes (`ArgumentPhi` / `DataFlowPhi` of ir.hpp). -/
inductive PhiKind
  | argument
  | dataFlow
deriving DecidableEq, Repr

/-- The node compound of the `j`-th phi (alloc-regs.cpp lines 417-440). -/
def phiNodeCompound (j : Nat) (k : PhiKind) : CompoundSpec :=
  { id := 2 * j,
    possibleRegisters :=
      match k with
      | PhiKind.argument => 0x80
      | PhiKind.dataFlow => gprMask,
    intervals :=
      [{ equiv := 2 * j,
         originPc := { subBlock := -1, instrIndex := 0, subInstruction := 1 },
         finalPc := { subBlock := 0, instrIndex := j, subInstruction := -1 } }] }

/-- The copy compound of the `j`-th phi (alloc-regs.cpp lines 442-454) in a
block where the pseudo move's result has no further uses, so that the
post-processing of collected compounds sets `finalPc` to the origin
(`maybeFinalPc.value_or(interval->originPc)`, lines 772-778). -/
def phiCopyCompoundNoUses (j : Nat) : CompoundSpec :=
  { id := 2 * j + 1,
    possibleRegisters := gprMask,
    intervals :=
      [{ equiv := 2 * j + 1,
         originPc := { subBlock := 0, instrIndex := j, subInstruction := 1 },
         finalPc := { subBlock := 0, instrIndex := j, subInstruction := 1 } }] }

/-- The node compounds generated by the phi loop, in phi order, starting at
phi index `start`. -/
def collectPhiNodeCompoundsFrom : Nat → List PhiKind → List CompoundSpec
  | _, [] => []
  | j, k :: rest => phiNodeCompound j k :: collectPhiNodeCompoundsFrom (j + 1) rest

/-- The node compounds generated by the phi loop of
`_collectBlockIntervals`, in phi order. -/
def collectPhiNodeCompounds (phis : List PhiKind) : List CompoundSpec :=
  collectPhiNodeCompoundsFrom 0 phis

/-! ### Allocation scenarios for argument phis

A function whose entry block carries only `ArgumentPhi`s and returns with
`Ret(0)` generates exactly the phi compounds above: the `Ret` has no
operands and there are no other instructions and no data-flow edges, so the
restricted queue stays empty and the unrestricted queue holds the node
compounds (pushed during the phi loop) followed by the copy compounds
(pushed by the post-processing of `collected`), with one penalty edge per
phi. -/

/-- Unrestricted allocation queue for a one-argument function. -/
def oneArgQueue : List CompoundSpec :=
  collectPhiNodeCompounds [PhiKind.argument] ++ [phiCopyCompoundNoUses 0]

/-- Penalty edges for a one-argument function. -/
def oneArgPenalties : List (Nat × Nat) := [(0, 1)]

/-- Unrestricted allocation queue for a two-argument function. -/
def twoArgQueue : List CompoundSpec :=
  collectPhiNodeCompounds [PhiKind.argument, PhiKind.argument]
    ++ [phiCopyCompoundNoUses 0, phiCopyCompoundNoUses 1]

/-- Penalty edges for a two-argument function. -/
def twoArgPenalties : List (Nat × Nat) := [(0, 1), (2, 3)]

/-! ## Lowering and the minimal-ret pipeline -/

/-- Generic IR branches (`FunctionReturn` / `Unconditional` / `Conditional`
of ir.hpp), with operands already taken through value lowering — the branch
rewrite of `LowerCodeImpl::run()` carries the operand values over unchanged
(`lower->operand(i) = functionReturn->operand(i).get()`). -/
inductive GBranch
  | functionReturn (operands : List AValue)
  | unconditional (target : Nat)
  | conditional (operand : AValue) (ifTarget elseTarget : Nat)
deriving DecidableEq, Repr

/-- The branch rewrite of `LowerCodeImpl::run()` (lower-code.cpp lines
132-154): `FunctionReturn(n) → Ret(n)`, `Unconditional → Jmp`,
`Conditional → Jnz`. -/
def lowerBranch : GBranch → ABranch
  | GBranch.functionReturn ops => ABranch.ret ops
  | GBranch.unconditional t => ABranch.jmp t
  | GBranch.conditional op i e => ABranch.jnz op i e

/-- Lowering of a basic block that contains no phis and no instructions:
the phi and instruction loops of `LowerCodeImpl::run()` contribute nothing
and only the branch is rewritten. -/
def lowerEmptyBlock (branch : GBranch) : List AInstr × ABranch :=
  ([], lowerBranch branch)

/-- `cloneModeValue` of alloc-regs.cpp: a fresh `RegisterMode` with the same
operand size (and the default unallocated register); any other value kind is
rejected by assertion. -/
def cloneModeValue : AValue → Except String AValue
  | AValue.registerMode os _ => Except.ok (AValue.registerMode os (-1))
  | _ => Except.error "Unexpected x86_64 IR value"

/-- The branch-directed pseudo-move insertion at the end of
`_collectBlockIntervals` (alloc-regs.cpp lines 724-769): a `Ret` gets a
`PseudoMoveMultiple` over its operands appended to the block, and its
operands are redirected to the pseudo move's results; a `Jnz` gets a
`PseudoMoveSingle` for its condition operand; a `Jmp` gets nothing. -/
def collectBranchPseudoMoves (insts : List AInstr) (branch : ABranch) :
    Except String (List AInstr × ABranch) :=
  match branch with
  | ABranch.ret ops =>
    match ops.mapM (fun op => (cloneModeValue op).map (fun c => (c, op))) with
    | Except.ok pairs =>
      Except.ok (insts ++ [AInstr.pseudoMoveMultiple pairs],
        ABranch.ret (pairs.map Prod.fst))
    | Except.error e => Except.error e
  | ABranch.jnz op i e =>
    match cloneModeValue op with
    | Except.ok c => Except.ok (insts ++ [AInstr.pseudoMoveSingle c op], ABranch.jnz c i e)
    | Except.error e => Except.error e
  | ABranch.jmp t => Except.ok (insts, ABranch.jmp t)

/-- The back-end pipeline applied to the minimal-ret scenario: a function of
one basic block with no phis, no instructions, no data-flow edges and the
branch `FunctionReturn(0)`.  Lowering rewrites the branch to `Ret(0)`; the
interval collection appends a zero-arity `PseudoMoveMultiple` and creates no
live compounds (every compound-creation site sits in a loop over phis,
instructions, data-flow edges or `Ret` operands, all empty here), so the
allocation loops run on empty queues; the allocation is then established on
the single (entry) block and the block is emitted. -/
def pipelineMinimalRet : Except String EmitState := do
  let (linsts, lbranch) := lowerEmptyBlock (GBranch.functionReturn [])
  let (cinsts, cbranch) ← collectBranchPseudoMoves linsts lbranch
  let alloc ← allocateAll [] [] {}
  let einsts ← establishAllocationBlock true alloc.usedRegisters cinsts cbranch
  emitBlock einsts cbranch

/-- A `PseudoMoveMultiple` pair list forming the pure register cycle
`0 → 1 → 0` of length 2 (a parallel swap): pair 0 moves register 0 into
register 1, pair 1 moves register 1 into register 0.  Pairs are `(result,
operand)` and the registers have been written into the values by
`setRegister`. -/
def swapPseudoPairs : List (AValue × AValue) :=
  [ (AValue.registerMode OperandSize.dword 1, AValue.registerMode OperandSize.dword 0),
    (AValue.registerMode OperandSize.dword 0, AValue.registerMode OperandSize.dword 1) ]

/-- A `PseudoMoveMultiple` pair list with the single acyclic move of
register 0 into register 1. -/
def oneMovePseudoPairs : List (AValue × AValue) :=
  [(AValue.registerMode OperandSize.dword 1, AValue.registerMode OperandSize.dword 0)]

/-! ## Theorems -/

/-- Helper: the chain-move translation only produces `Nop` and `MovMR`
instructions, never an `XchgMR`. -/
theorem translateChainMoves_no_xchg
    (pairs : List (AValue × AValue)) (a b : AValue) :
    ∀ (ms : List ChainMove) (l : List AInstr),
      translateChainMoves pairs ms = Except.ok l → AInstr.xchgMR a b ∉ l := by
  intro ms
  induction ms with
  | nil =>
    intro l h hm
    injection h with h2
    subst h2
    exact List.not_mem_nil _ hm
  | cons m rest ih =>
    intro l h hm
    cases m with
    | nop i =>
      simp only [translateChainMoves] at h
      cases hrec : translateChainMoves pairs rest with
      | ok tl =>
        rw [hrec] at h
        injection h with h2
        subst h2
        rcases List.mem_cons.mp hm with h3 | h3
        · exact AInstr.noConfusion h3
        · exact ih tl hrec h3
      | error e =>
        rw [hrec] at h
        simp at h
    | mov i =>
      simp only [translateChainMoves] at h
      cases hp : pairs.get? i with
      | some pr =>
        rw [hp] at h
        cases hrec : translateChainMoves pairs rest with
        | ok tl =>
          rw [hrec] at h
          injection h with h2
          subst h2
          rcases List.mem_cons.mp hm with h3 | h3
          · exact AInstr.noConfusion h3
          · exact ih tl hrec h3
        | error e =>
          rw [hrec] at h
          simp at h
      | none =>
        rw [hp] at h
        simp at h

/-- Helper: position `j` of the phi node-compound list is the node compound
of the `j`-th phi. -/
theorem collectPhiNodeCompoundsFrom_get? :
    ∀ (phis : List PhiKind) (start j : Nat),
      (collectPhiNodeCompoundsFrom start phis).get? j
        = (phis.get? j).map (fun k => phiNodeCompound (start + j) k) := by
  intro phis
  induction phis with
  | nil =>
    intro start j
    simp [collectPhiNodeCompoundsFrom]
  | cons k rest ih =>
    intro start j
    cases j with
    | zero =>
      simp [collectPhiNodeCompoundsFrom]
    | succ j' =>
      simp only [collectPhiNodeCompoundsFrom, List.get?]
      rw [ih (start + 1) j']
      have h : start + 1 + j' = start + (j' + 1) := by omega
      rw [h]

/-- C1 (code_bug): for the minimal-ret scenario — a function of a single
basic block whose branch is `FunctionReturn(0)` — the pipeline of lowering,
register allocation and machine-code emission does not produce a `.text`
section holding only the byte `C3`.  The allocator's 16-byte stack-alignment
rule forces `frameSpace = 8` even though no register is saved, so the
establishment pass wraps the block in `DecrementStack 8` / `IncrementStack
8`; the machine-code emitter has no case for these instruction kinds and
fails with its own `assert(!"Unexpected x86_64 IR instruction")`.  Only the
`Ret` branch in isolation emits `C3`. -/
theorem C1_minimalRet_bug :
    establishAllocationBlock true 0 [AInstr.pseudoMoveMultiple []] (ABranch.ret [])
      = Except.ok [AInstr.decrementStack 8, AInstr.incrementStack 8]
    ∧ pipelineMinimalRet = Except.error "Unexpected x86_64 IR instruction"
    ∧ emitBranch {} (ABranch.ret []) = Except.ok { text := [0xC3], got := [], plt := [] } :=
  ⟨rfl, rfl, rfl⟩

/-- C2 counterexample: resolving the `PseudoMoveMultiple` whose pairs form
the register cycle `0 → 1 → 0` — a remaining cycle of length 2 — does not
emit an `XchgMR` (contrary to the claim): the rewrite succeeds with an empty
instruction list, i.e. the swap's moves are silently dropped. -/
theorem C2_counterexample :
    ¬ ∃ (l : List AInstr) (a b : AValue),
        establishInstr (AInstr.pseudoMoveMultiple swapPseudoPairs) = Except.ok l
          ∧ AInstr.xchgMR a b ∈ l := by
  rintro ⟨l, a, b, hl, hm⟩
  have h : establishInstr (AInstr.pseudoMoveMultiple swapPseudoPairs) = Except.ok [] := rfl
  rw [h] at hl
  injection hl with h2
  subst h2
  exact List.not_mem_nil _ hm

/-- C2 (amended): after all tail moves of a `PseudoMoveMultiple` parallel
copy have been emitted, remaining register cycles are not resolved — cycle
resolution is unimplemented.  A pure cycle of length 2 (the swap
`0 → 1 → 0`) yields no instruction at all, its moves being dropped; a cycle
that a move leads out of (here `0 → 1 → 0` plus `0 → 2`) makes the cycle
active and hits the source's `assert(!"Implement move cycles")`; and no
resolution of a `PseudoMoveMultiple` ever emits an `XchgMR`. -/
theorem C2_moveCycles_unimplemented :
    establishInstr (AInstr.pseudoMoveMultiple swapPseudoPairs) = Except.ok []
    ∧ resolveMoveChains [(0, 1), (1, 0), (0, 2)] = Except.error "Implement move cycles"
    ∧ ∀ (pairs : List (AValue × AValue)) (l : List AInstr),
        establishInstr (AInstr.pseudoMoveMultiple pairs) = Except.ok l →
        ∀ a b : AValue, AInstr.xchgMR a b ∉ l := by
  refine ⟨rfl, rfl, ?_⟩
  intro pairs l h a b
  simp only [establishInstr] at h
  cases h1 : pseudoPairRegisters pairs with
  | error e =>
    rw [h1] at h
    simp at h
  | ok regPairs =>
    rw [h1] at h
    dsimp only at h
    cases h2 : resolveMoveChains regPairs with
    | error e =>
      rw [h2] at h
      simp at h
    | ok moves =>
      rw [h2] at h
      exact translateChainMoves_no_xchg pairs a b moves l h

/-- C2 witness: instantiating the no-`XchgMR` statement of
`C2_moveCycles_unimplemented` at the one-move parallel copy, whose
resolution emits the single `MovMR` of register 0 into register 1. -/
theorem C2_moveCycles_unimplemented_witness :
    AInstr.xchgMR (AValue.registerMode OperandSize.dword 0)
        (AValue.registerMode OperandSize.dword 0)
      ∉ [AInstr.movMR (AValue.registerMode OperandSize.dword 1)
          (AValue.registerMode OperandSize.dword 0)] :=
  C2_moveCycles_unimplemented.2.2 oneMovePseudoPairs
    [AInstr.movMR (AValue.registerMode OperandSize.dword 1)
      (AValue.registerMode OperandSize.dword 0)] rfl
    (AValue.registerMode OperandSize.dword 0) (AValue.registerMode OperandSize.dword 0)

/-- C3 counterexample: in a block with two `ArgumentPhi`s the collected node
compounds are restricted to `{0x80, 0x80}` — both pinned to RDI, not
`{RDI, RSI} = {0x80, 0x40}` as the claim's SysV ordering requires — and the
allocation of the generated compounds fails (so in particular the second
argument is never assigned RSI). -/
theorem C3_counterexample :
    (collectPhiNodeCompounds [PhiKind.argument, PhiKind.argument]).map
        CompoundSpec.possibleRegisters ≠ [0x80, 0x40]
    ∧ ¬ ∃ st, allocateAll twoArgQueue twoArgPenalties {} = Except.ok st := by
  constructor
  · decide
  · rintro ⟨st, hst⟩
    have h : allocateAll twoArgQueue twoArgPenalties {}
        = Except.error "TODO: Implement live range splitting" := rfl
    rw [h] at hst
    exact Except.noConfusion hst

/-- C3 (amended): the register allocator restricts every `ArgumentPhi`'s
compound to `possibleRegisters = 0x80` (RDI only), regardless of the phi's
position; consequently a one-argument function has its argument allocated to
RDI (register 7), while a two-argument function — both arguments pinned to
RDI over overlapping intervals — fails with the allocator's "live range
splitting" exception instead of receiving RDI and RSI. -/
theorem C3_argumentRegisters :
    (∀ (phis : List PhiKind) (j : Nat), phis.get? j = some PhiKind.argument →
      ((collectPhiNodeCompounds phis).get? j).map CompoundSpec.possibleRegisters
        = some 0x80)
    ∧ Except.map (fun st => st.assignments) (allocateAll oneArgQueue oneArgPenalties {})
        = Except.ok [(0, 7), (1, 7)]
    ∧ allocateAll twoArgQueue twoArgPenalties {}
        = Except.error "TODO: Implement live range splitting" := by
  refine ⟨?_, rfl, rfl⟩
  intro phis j hj
  rw [collectPhiNodeCompounds, collectPhiNodeCompoundsFrom_get? phis 0 j, hj]
  simp [phiNodeCompound]

/-- C3 witness: instantiating the RDI-restriction statement of
`C3_argumentRegisters` at a one-phi block. -/
theorem C3_argumentRegisters_witness :
    ((collectPhiNodeCompounds [PhiKind.argument]).get? 0).map
      CompoundSpec.possibleRegisters = some 0x80 :=
  C3_argumentRegisters.1 [PhiKind.argument] 0 rfl

end Lewis
